import Mathlib

/-!
Verification development for the braiser browser-automation extension.

The repository ships a background orchestration service in two related
revisions (both present in the source tree of the background service file,
referred to below as revision 1 and revision 2), an AI client, a response
parser and a content script.  This file gives a shallow embedding of the
orchestration core and the client-side helpers:

* pure functions of the source are translated to Lean functions;
* the stateful `BackgroundService` class becomes explicit state passing over
  a `Engine1` / `Engine2` state record (one per revision);
* asynchronous executor / navigation outcomes are supplied as explicit
  scripted environments (`ExecOutcome`, `DispatchEnv`), mirroring a scripted
  Executor Gateway;
* wall-clock timestamps (`new Date().toISOString()`, `Date.now()`) carry no
  logical content and are omitted from log entries;
* thrown JS exceptions are modelled with `Except` / an `Option String`
  error component.
-/

namespace Braiser

/-- Action kinds, from the `ActionType` union in src/types/index.ts. -/
inductive ActionType
  | NAVIGATE
  | CLICK
  | TYPE
  | SUBMIT
  | COMPLETE
  | FAILED
  | SCROLL
  | HOVER
  | STORE
  | PRINT
deriving DecidableEq, Repr

/-- The string name of an action kind, as used by template literals in the
source (for example the log entry written by revision 1 `executeAction`). -/
def ActionType.name : ActionType → String
  | .NAVIGATE => "NAVIGATE"
  | .CLICK => "CLICK"
  | .TYPE => "TYPE"
  | .SUBMIT => "SUBMIT"
  | .COMPLETE => "COMPLETE"
  | .FAILED => "FAILED"
  | .SCROLL => "SCROLL"
  | .HOVER => "HOVER"
  | .STORE => "STORE"
  | .PRINT => "PRINT"

/-- Action payload.  In the source the payload is a loosely typed
`Record<string, any>`; the fields below are the ones the orchestration core
reads.  Fields irrelevant for a given action keep their defaults. -/
structure Payload where
  url : String := ""
  selector : String := ""
  text : String := ""
  reason : Option String := none
  append : Bool := false
  direction : String := ""
  amount : Nat := 0
deriving DecidableEq, Repr

/-- An action returned by the decision oracle (`AIAction` in src/types).
The TS payload is optional; actions that carry no payload are modelled with
the default payload record. -/
structure AIAction where
  type : ActionType
  payload : Payload := {}
deriving DecidableEq, Repr

/-- JS `action.payload?.reason || 'Task failed'` / `|| 'Unknown reason'`:
an absent or empty reason falls back to the default. -/
def reasonOrElse (r : Option String) (dflt : String) : String :=
  match r with
  | none => dflt
  | some s => if s = "" then dflt else s

/-- Log entry kind (`ExecutionLog.type` in src/types). -/
inductive LogKind
  | info
  | error
  | warning
deriving DecidableEq, Repr

/-- One log entry.  Revision 1 `executeAction` pushes two plain strings into
`logs` (bypassing the `ExecutionLog` shape), so the embedding keeps both
forms.  Timestamps are wall-clock values and are omitted. -/
inductive LogEntry
  | raw (message : String)
  | entry (kind : LogKind) (message : String)
deriving DecidableEq, Repr

/-- Execution status (`ExecutionState.status`).  The literal `'failed'` is
assigned by revision 1 when the error budget trips even though the declared
TS union does not list it; the embedding includes it as a constructor. -/
inductive Status
  | idle
  | running
  | paused
  | error
  | failed
  | stopped
deriving DecidableEq, Repr

/-- `ExecutionState` from src/types/index.ts. -/
structure ExecutionState where
  status : Status
  currentStep : Nat
  totalSteps : Nat
  currentAction : Option AIAction := none
  error : Option String := none
  logs : List LogEntry
deriving DecidableEq, Repr

/-- One element of an observation snapshot (`PageElement`); only the fields
the structural fingerprint reads are kept.  `text` is optional in TS. -/
structure PageElement where
  type : String
  text : Option String := none
  isVisible : Bool
  path : String
deriving DecidableEq, Repr

/-- An observation snapshot (`PageState`). -/
structure PageState where
  url : String
  title : String
  elements : List PageElement
  timestamp : Nat
deriving DecidableEq, Repr

/-- `{ success, error? }`, the last-action result fed back to the oracle. -/
structure ActionResult where
  success : Bool
  error : Option String := none
deriving DecidableEq, Repr

/-- Outcome of one scripted executor interaction: a resolved promise or a
rejection carrying the thrown error message. -/
inductive ExecOutcome
  | ok
  | err (msg : String)
deriving DecidableEq, Repr

/-- A decision as consumed by the orchestrator (`AIResponse`): the action is
checked for truthiness (`if (response.action)`), hence an `Option`. -/
structure AIResponseM where
  action : Option AIAction
  reasoning : String := ""
  completed : Bool := false
  failed : Bool := false
deriving DecidableEq, Repr

/-! ### Constants of the reference behavior -/

/-- `MAX_ERRORS` in revision 1 of the background service. -/
def MAX_ERRORS : Nat := 5

/-- `maxAttempts` in revision 2 `executeAction`. -/
def MAX_ATTEMPTS : Nat := 3

/-- Backoff between retry attempts in revision 2 `executeAction` (ms). -/
def RETRY_BACKOFF_MS : Nat := 1000

/-- Navigation timeout in revision 1 `navigate` (ms). -/
def NAV_TIMEOUT_V1 : Nat := 15000

/-- Navigation timeout in revision 2 `navigate` (ms). -/
def NAV_TIMEOUT_V2 : Nat := 10000

/-- Quiescence window of the observation debouncers (ms), used both by the
content script mutation debounce and by revision 1 `handlePageStateUpdate`. -/
def DEBOUNCE_MS : Nat := 500

/-- `MAX_STORED_LENGTH` in the AI client. -/
def MAX_STORED_LENGTH : Nat := 2000

/-- `MAX_PRINT_LENGTH` in the AI client. -/
def MAX_PRINT_LENGTH : Nat := 2000

/-! ### AI client: stored-data buffer and action history -/

/-- `AIClient.validateStoredData`: text longer than the cap is truncated
(`text.slice(0, MAX_STORED_LENGTH)`), otherwise returned unchanged. -/
def validateStoredData (text : String) : String :=
  if text.length > MAX_STORED_LENGTH then String.mk (text.data.take MAX_STORED_LENGTH)
  else text

/-- `AIClient.validatePrintData`: same truncation with the print cap. -/
def validatePrintData (text : String) : String :=
  if text.length > MAX_PRINT_LENGTH then String.mk (text.data.take MAX_PRINT_LENGTH)
  else text

/-- The STORE branch of `AIClient.getNextAction`: validate the incoming
text, then append with a line break when `append` is set and the buffer is
non-empty (a truthy string), otherwise replace the buffer. -/
def storeUpdate (buf : String) (text : String) (append : Bool) : String :=
  let newText := validateStoredData text
  if append = true ∧ buf ≠ "" then buf ++ "\n" ++ newText else newText

/-- Effect of one parsed action on the AI client stored-data buffer
(`currentStoredData`): STORE updates it, COMPLETE and FAILED clear it,
every other action leaves it alone. -/
def aiStoreStep (buf : String) (a : AIAction) : String :=
  match a.type with
  | .STORE => storeUpdate buf a.payload.text a.payload.append
  | .COMPLETE => ""
  | .FAILED => ""
  | _ => buf

/-- A STORE action with the given text and append flag. -/
def storeAct (text : String) (append : Bool) : AIAction :=
  { type := .STORE, payload := { text := text, append := append } }

/-- One entry of `AIClient.actionHistory` (timestamp omitted). -/
structure HistEntry where
  action : Option AIAction
  reasoning : String
  success : Bool
deriving DecidableEq, Repr

/-- `AIClient.addToHistory`: push the entry, then drop the oldest entry
(`shift`) when the length exceeds 10. -/
def addToHistory (h : List HistEntry) (e : HistEntry) : List HistEntry :=
  let h2 := h ++ [e]
  if h2.length > 10 then h2.tail else h2

/-! ### Response parser -/

/-- The `action` object of a decoded oracle reply before validation; the
`type` field may be absent. -/
structure RawAction where
  type : Option String
  payload : Payload := {}
deriving DecidableEq, Repr

/-- A decoded oracle reply (`JSON.parse` output) before validation.  The
embedding starts from the decoded object; the regex extraction and JSON
decoding of `AIResponseParser.parse` are environmental and any of their
failures land in the same catch-all error. -/
structure ParsedJson where
  action : Option RawAction
  reasoning : Option String := none
deriving DecidableEq, Repr

/-- A validated decision as produced by the parser. -/
structure ParsedResponse where
  action : RawAction
  reasoning : String
  completed : Bool
  failed : Bool
deriving DecidableEq, Repr

/-- `AIResponseParser.parse`: reject a reply whose `action` or
`action.type` is missing or falsy (the empty string is falsy); otherwise
set `completed` exactly when the action type is `COMPLETE` and `failed`
exactly when it is `FAILED`.  `reasoning || ''` collapses a missing
reasoning to the empty string. -/
def AIResponseParser.parse (p : ParsedJson) : Except String ParsedResponse :=
  match p.action with
  | none => Except.error ("Invalid AI response format")
  | some a =>
    match a.type with
    | none => Except.error ("Invalid AI response format")
    | some t =>
      if t = "" then Except.error ("Invalid AI response format")
      else
        Except.ok
          { action := a
            reasoning := (p.reasoning.getD "")
            completed := t = "COMPLETE"
            failed := t = "FAILED" }

/-! ### Content script: structural fingerprint and observation debounce -/

/-- The simplified state built by `ContentScript.hashState`.  The source
serializes this record with `JSON.stringify` and compares the strings;
stringification of this fixed shape is injective, so string equality of the
hashes coincides with equality of this record. -/
structure SimplifiedState where
  url : String
  title : String
  elementCount : Nat
  visibleElements : String
deriving DecidableEq, Repr

/-- The per-element part of the fingerprint: the template literal
interpolates an absent `text` as the string `undefined`. -/
def elementFingerprint (el : PageElement) : String :=
  el.type ++ ":" ++ el.path ++ ":" ++ (match el.text with
    | some t => t
    | none => "undefined")

/-- `ContentScript.hashState`: url, title, element count and the joined
fingerprints of the visible elements. -/
def hashState (s : PageState) : SimplifiedState :=
  { url := s.url
    title := s.title
    elementCount := s.elements.length
    visibleElements :=
      String.intercalate "|" ((s.elements.filter (fun el => el.isVisible)).map elementFingerprint) }

/-- Fingerprint-gate state of the content script (`lastStateHash`,
`isInitialStateSet`). -/
structure CSState where
  lastStateHash : Option SimplifiedState := none
  isInitialStateSet : Bool := false
deriving DecidableEq, Repr

/-- `ContentScript.sendPageState` on a snapshot: deliver (send the
PAGE_STATE_UPDATE message) exactly when this is the first state ever or the
fingerprint differs from the previously delivered one; the gate state is
updated only on delivery. -/
def sendPageState (cs : CSState) (s : PageState) : CSState × Option PageState :=
  let h := hashState s
  if cs.isInitialStateSet = false ∨ some h ≠ cs.lastStateHash then
    ({ lastStateHash := some h, isInitialStateSet := true }, some s)
  else (cs, none)

/-- Effect of one burst of significant DOM changes falling inside a single
quiescence window (`ContentScript.handleDOMChanges`): every event resets the
pending 500 ms timer, so the timer fires once after the burst and
`sendPageState` then reads the page as left by the last change.  The result
is the updated gate state and the list of deliveries for the burst. -/
def debounceBurst (cs : CSState) (burst : List PageState) : CSState × List PageState :=
  match burst.getLast? with
  | none => (cs, [])
  | some s =>
    let r := sendPageState cs s
    (r.1, r.2.toList)

/-! ### Revision 1 of the background service (error budget, debounce) -/

/-- State of revision 1 `BackgroundService`.  `hasTargetTab` abstracts
`targetTabId !== null`; tab management is environmental and no modelled
operation changes it. -/
structure Engine1 where
  executionState : ExecutionState
  currentTask : Option String := none
  lastPageState : Option PageState := none
  lastActionResult : ActionResult := { success := true }
  errorCount : Nat := 0
  hasTargetTab : Bool := true
deriving DecidableEq, Repr

/-- The field initializers of revision 1 `BackgroundService`. -/
def Engine1.init : Engine1 :=
  { executionState := { status := .idle, currentStep := 0, totalSteps := 0, logs := [] } }

/-- Scripted environment for one dispatched action: the outcome of the
content-script round trip (`executeInTab`, including its internal readiness
wait and reinjection handling), the arrival time of the navigation
load-complete signal (`none` when it never arrives inside the window) and
the outcome of the post-navigation re-establishment. -/
structure DispatchEnv where
  tabResult : ExecOutcome := .ok
  navSignalAt : Option Nat := none
  navReinject : ExecOutcome := .ok
deriving DecidableEq, Repr

/-- Revision 1 `navigate`: reject with `Navigation timeout` when no
load-complete signal for the target arrives before the 15 s timer fires;
on load completion wait a settle delay, then re-inject the content script,
surfacing a re-injection failure as the action's failure. -/
def navigate1 (signalAt : Option Nat) (reinject : ExecOutcome) : Except String Unit :=
  match signalAt with
  | none => Except.error ("Navigation timeout")
  | some t =>
    if t < NAV_TIMEOUT_V1 then
      match reinject with
      | .ok => Except.ok ()
      | .err m => Except.error m
    else Except.error ("Navigation timeout")

/-- Revision 1 `performAction`: route an action either to the executor
(`executeInTab`), to the navigation barrier, or handle it in-process.
Returns the updated engine and `some msg` when the action threw.
In-process updates go through `updateExecutionState`, which spreads the
previous state and forces `totalSteps := 0`. -/
def performAction1 (env : DispatchEnv) (a : AIAction) (e : Engine1) :
    Engine1 × Option String :=
  match a.type with
  | .CLICK | .TYPE | .SUBMIT | .SCROLL | .HOVER =>
    match env.tabResult with
    | .ok => (e, none)
    | .err m => (e, some m)
  | .STORE => (e, none)
  | .NAVIGATE =>
    match navigate1 env.navSignalAt env.navReinject with
    | .ok _ => (e, none)
    | .error m => (e, some m)
  | .PRINT =>
    ({ e with
        executionState := { e.executionState with
                              totalSteps := 0,
                              logs := e.executionState.logs ++
                                [LogEntry.entry .info a.payload.text] } }, none)
  | .COMPLETE =>
    ({ e with
        executionState := { e.executionState with
                              status := .idle,
                              totalSteps := 0,
                              logs := e.executionState.logs ++
                                [LogEntry.entry .info ("Task completed successfully")] } }, none)
  | .FAILED =>
    let reason := reasonOrElse a.payload.reason "Task failed"
    ({ e with
        executionState := { e.executionState with
                              status := .error,
                              error := some reason,
                              totalSteps := 0,
                              logs := e.executionState.logs ++
                                [LogEntry.entry .error reason] } }, none)

/-- Revision 1 `stopExecution`: set the status to idle and reset the error
budget.  It does not touch the current task, the logs or the step count. -/
def stopExecution1 (e : Engine1) : Engine1 :=
  { e with executionState := { e.executionState with status := .idle }, errorCount := 0 }

/-- Revision 1 `handleNewTask`: stop any existing execution, replace the
whole execution state (status running, step counter 0, empty logs), install
the new task and reset the error budget.  The subsequent single
`requestNextAction` call is performed by the loop driver below. -/
def handleNewTask1 (prompt : String) (e : Engine1) : Engine1 :=
  let e1 := stopExecution1 e
  { e1 with
    executionState :=
      { status := .running, currentStep := 0, totalSteps := 0,
        currentAction := none, error := none, logs := [] }
    currentTask := some prompt
    errorCount := 0 }

/-- Revision 1 `executeAction`: guard on the target tab, bump the step
counter, log the action, perform it, then fold the outcome into the error
budget; when the budget reaches `MAX_ERRORS` the status is set to failed, a
standard message is logged and `stopExecution` runs before an early return.
Returns `none` when the target-tab guard threw, otherwise the updated
engine and whether the caller should continue with `requestNextAction`
(the source guards that call on the status still being running). -/
def executeAction1 (env : DispatchEnv) (a : AIAction) (e : Engine1) :
    Option (Engine1 × Bool) :=
  if e.hasTargetTab = false then none
  else
    let e1 : Engine1 :=
      { e with
          executionState := { e.executionState with
                                currentStep := e.executionState.currentStep + 1,
                                logs := e.executionState.logs ++
                                  [LogEntry.raw ("Executing action: " ++ a.type.name)] } }
    match performAction1 env a e1 with
    | (e2, none) =>
      let e3 : Engine1 := { e2 with errorCount := 0, lastActionResult := { success := true } }
      some (e3, e3.executionState.status = .running)
    | (e2, some msg) =>
      let ec := e2.errorCount + 1
      if MAX_ERRORS ≤ ec then
        let e3 : Engine1 :=
          { e2 with
              errorCount := ec,
              executionState := { e2.executionState with
                                    status := .failed,
                                    logs := e2.executionState.logs ++
                                      [LogEntry.raw ("Task failed due to too many errors.")] } }
        some (stopExecution1 e3, false)
      else
        let e3 : Engine1 :=
          { e2 with
              errorCount := ec,
              lastActionResult := { success := false, error := some msg } }
        some (e3, e3.executionState.status = .running)

/-- Dispatch and oracle-call counters of a driven run. -/
structure LoopStats where
  dispatches : Nat := 0
  oracleCalls : Nat := 0
deriving DecidableEq, Repr

/-- Revision 1 `requestNextAction` together with the recursion it performs
through `executeAction`: ask the scripted oracle for a decision, log the
reasoning and dispatch the action, and keep going while `executeAction`
reports that the status is still running.  An oracle error is caught and
only logged; a decision with no action and `completed` set puts the status
to idle and clears the task.  The fuel argument only bounds the recursion
of the embedding; every run below finishes with fuel to spare. -/
def requestNextAction1 (oracle : Nat → Except String AIResponseM)
    (envs : Nat → DispatchEnv) :
    Nat → Engine1 → LoopStats → Engine1 × LoopStats
  | 0, e, st => (e, st)
  | Nat.succ fuel, e, st =>
    match e.currentTask with
    | none => (e, st)
    | some _ =>
      match oracle st.oracleCalls with
      | Except.error _ => (e, { st with oracleCalls := st.oracleCalls + 1 })
      | Except.ok r =>
        let st1 : LoopStats := { st with oracleCalls := st.oracleCalls + 1 }
        match r.action with
        | some a =>
          let e1 : Engine1 :=
            { e with
                executionState := { e.executionState with
                                      currentAction := some a,
                                      totalSteps := 0,
                                      logs := e.executionState.logs ++
                                        [LogEntry.entry .info ("AI Response: " ++ r.reasoning)] } }
          match executeAction1 (envs st1.dispatches) a e1 with
          | none => (e1, st1)
          | some (e2, cont) =>
            let st2 : LoopStats := { st1 with dispatches := st1.dispatches + 1 }
            if cont then requestNextAction1 oracle envs fuel e2 st2 else (e2, st2)
        | none =>
          if r.completed then
            ({ e with
                executionState := { e.executionState with
                                      status := .idle,
                                      totalSteps := 0,
                                      logs := e.executionState.logs ++
                                        [LogEntry.entry .info ("Task completed successfully")] },
                currentTask := none }, st1)
          else (e, st1)

/-- Start a task with revision 1 `handleNewTask` and run the decision loop. -/
def startTask1 (oracle : Nat → Except String AIResponseM) (envs : Nat → DispatchEnv)
    (fuel : Nat) (prompt : String) (e : Engine1) : Engine1 × LoopStats :=
  requestNextAction1 oracle envs fuel (handleNewTask1 prompt e) {}

/-- Revision 1 `handlePageStateUpdate` on one burst of PAGE_STATE_UPDATE
messages inside a single quiescence window: each message clears the pending
timer and re-arms it with its state, so the callback runs once with the last
state of the burst; it records the state and makes one decision-oracle call
exactly when a task is active and the status is running.  The result is the
updated engine and the number of decision calls triggered. -/
def bgDebounceBurst (e : Engine1) (burst : List PageState) : Engine1 × Nat :=
  match burst.getLast? with
  | none => (e, 0)
  | some s =>
    let e1 : Engine1 := { e with lastPageState := some s }
    if e1.currentTask ≠ none ∧ e1.executionState.status = .running then (e1, 1) else (e1, 0)

/-! ### Trace semantics over revision 1 (for the step-counter invariant) -/

/-- External events driving revision 1 state: a start-task request, one
dispatched action, or a stop request. -/
inductive Ev
  | start (prompt : String)
  | act (env : DispatchEnv) (a : AIAction)
  | stop
deriving Repr

/-- One event step.  A dispatch whose target-tab guard throws leaves the
state unchanged (the exception is caught upstream before any mutation). -/
def stepEv (e : Engine1) : Ev → Engine1
  | .start p => handleNewTask1 p e
  | .act env a =>
    match executeAction1 env a e with
    | none => e
    | some r => r.1
  | .stop => stopExecution1 e

/-- Run a list of events. -/
def runEvs (e : Engine1) : List Ev → Engine1
  | [] => e
  | ev :: evs => runEvs (stepEv e ev) evs

/-- Whether an event is a start-task request. -/
def Ev.isStart : Ev → Bool
  | .start _ => true
  | _ => false

/-- Number of dispatched actions in a trace. -/
def countActs : List Ev → Nat
  | [] => 0
  | Ev.act _ _ :: evs => countActs evs + 1
  | _ :: evs => countActs evs

/-- `getActionDescription` (identical in both revisions): a human-readable
description of an action, logged before the action executes. -/
def getActionDescription (a : AIAction) : String :=
  match a.type with
  | .NAVIGATE => "Navigating to " ++ a.payload.url
  | .CLICK => "Clicking element \"" ++ a.payload.selector ++ "\""
  | .TYPE => "Typing \"" ++ a.payload.text ++ "\" into \"" ++ a.payload.selector ++ "\""
  | .SUBMIT => "Submitting form \"" ++ a.payload.selector ++ "\""
  | .SCROLL => "Scrolling " ++ a.payload.direction ++ " by " ++ toString a.payload.amount ++ "px"
  | .HOVER => "Hovering over element \"" ++ a.payload.selector ++ "\""
  | .STORE => "Storing " ++ (if a.payload.append then "additional " else "") ++ "data"
  | .PRINT => "Displaying information to user"
  | .COMPLETE => "Task completed successfully"
  | .FAILED => "Task failed: " ++ reasonOrElse a.payload.reason "Unknown reason"

/-! ### Revision 2 of the background service (guard, retry loop) -/

/-- State of revision 2 `BackgroundService`. -/
structure Engine2 where
  executionState : ExecutionState
  currentTask : Option String := none
  lastPageState : Option PageState := none
  hasTargetTab : Bool := true
deriving DecidableEq, Repr

/-- Revision 2 `stopExecution`: clear the active task, replace the whole
execution state with an idle one whose logs gain a stopped-by-user entry,
and clear the pending observation. -/
def stopExecution2 (e : Engine2) : Engine2 :=
  { e with
      currentTask := none,
      executionState :=
        { status := .idle, currentStep := 0, totalSteps := 0,
          currentAction := none, error := none,
          logs := e.executionState.logs ++
            [LogEntry.entry .info ("Task execution stopped by user")] },
      lastPageState := none }

/-- Revision 2 `navigate`: 10 s timeout; after the load-complete signal the
content script is injected, given a settle delay and asked for the page
state before the timer is cleared (`post` scripts those steps). -/
def navigate2 (signalAt : Option Nat) (post : ExecOutcome) : Except String Unit :=
  match signalAt with
  | none => Except.error ("Navigation timeout")
  | some t =>
    if t < NAV_TIMEOUT_V2 then
      match post with
      | .ok => Except.ok ()
      | .err m => Except.error m
    else Except.error ("Navigation timeout")

/-- Counters describing one revision 2 dispatch: executor round trips
attempted, re-injections performed between attempts, total backoff waited,
and navigation calls issued. -/
structure DispatchStats where
  tabAttempts : Nat := 0
  reinjects : Nat := 0
  backoffMs : Nat := 0
  navCalls : Nat := 0
deriving DecidableEq, Repr

/-- The retry loop of revision 2 `executeAction` for executor-bound
actions: up to `remaining` attempts (entered with `MAX_ATTEMPTS`); a failed
attempt other than the last is followed by a 1 s backoff and a content
script re-injection (whose own failure is swallowed) before the next try;
the failure of the last attempt is rethrown.  `script i` is the outcome of
the i-th executor round trip. -/
def execWithRetry (script : Nat → ExecOutcome) :
    Nat → Nat → Except String Unit × DispatchStats
  | 0, _ => (Except.ok (), {})
  | Nat.succ r, i =>
    match script i with
    | .ok => (Except.ok (), { tabAttempts := 1 })
    | .err m =>
      if r = 0 then (Except.error m, { tabAttempts := 1 })
      else
        let rest := execWithRetry script r (i + 1)
        (rest.1,
          { tabAttempts := rest.2.tabAttempts + 1,
            reinjects := rest.2.reinjects + 1,
            backoffMs := rest.2.backoffMs + RETRY_BACKOFF_MS,
            navCalls := rest.2.navCalls })

/-- Scripted environment for one revision 2 dispatch. -/
structure DispatchEnv2 where
  tabScript : Nat → ExecOutcome := fun _ => .ok
  navSignalAt : Option Nat := none
  navPost : ExecOutcome := .ok

/-- Revision 2 `executeAction`: guard on the target tab and log a
human-readable description of the action; STORE and PRINT are handled
in-process before the retry loop, NAVIGATE goes through `navigate` and is
never retried, COMPLETE and FAILED update the state on their first loop
iteration without an executor round trip, and the remaining actions run the
retry loop.  An exhausted retry loop or a navigation failure is rethrown to
the caller (`Except.error`). -/
def executeAction2 (env : DispatchEnv2) (a : AIAction) (e : Engine2) :
    Except String Engine2 × DispatchStats :=
  if e.hasTargetTab = false then (Except.error ("No target tab found"), {})
  else
    let e1 : Engine2 :=
      { e with
          executionState := { e.executionState with
                                currentAction := some a,
                                totalSteps := 0,
                                logs := e.executionState.logs ++
                                  [LogEntry.entry .info (getActionDescription a)] } }
    match a.type with
    | .STORE => (Except.ok e1, {})
    | .PRINT =>
      (Except.ok { e1 with
          executionState := { e1.executionState with
                                totalSteps := 0,
                                logs := e1.executionState.logs ++
                                  [LogEntry.entry .info a.payload.text] } }, {})
    | .NAVIGATE =>
      match navigate2 env.navSignalAt env.navPost with
      | Except.ok _ => (Except.ok e1, { navCalls := 1 })
      | Except.error m => (Except.error m, { navCalls := 1 })
    | .COMPLETE =>
      (Except.ok { e1 with
          executionState := { e1.executionState with
                                status := .idle,
                                totalSteps := 0,
                                logs := e1.executionState.logs ++
                                  [LogEntry.entry .info ("Task completed successfully")] } }, {})
    | .FAILED =>
      let reason := reasonOrElse a.payload.reason "Task failed"
      (Except.ok { e1 with
          executionState := { e1.executionState with
                                status := .error,
                                error := some reason,
                                totalSteps := 0,
                                logs := e1.executionState.logs ++
                                  [LogEntry.entry .error reason] } }, {})
    | _ =>
      match execWithRetry env.tabScript MAX_ATTEMPTS 0 with
      | (Except.ok _, st) => (Except.ok e1, st)
      | (Except.error m, st) => (Except.error m, st)

/-- Revision 2 `handleNewTask` up to its dispatch of the first action:
fails when a task is already running (thrown before any state mutation),
requires a target tab, asks the oracle once (`resp` scripts that call),
requires an action in the reply, then installs the task and publishes a
running state whose log holds a single starting entry; the step counter is
published as 1.  The subsequent `executeAction` call is modelled
separately by `executeAction2`. -/
def handleNewTask2 (resp : Except String AIResponseM) (prompt : String) (e : Engine2) :
    Except String Engine2 :=
  if e.executionState.status = .running then Except.error ("A task is already running.")
  else if e.hasTargetTab = false then Except.error ("No target tab found")
  else
    match resp with
    | Except.error m => Except.error m
    | Except.ok r =>
      match r.action with
      | none => Except.error ("No action received from AI")
      | some a =>
        Except.ok
          { e with
              currentTask := some prompt,
              lastPageState := none,
              executionState :=
                { status := .running, currentStep := 1, totalSteps := 0,
                  currentAction := some a, error := e.executionState.error,
                  logs := [LogEntry.entry .info
                    ("Starting task: " ++ prompt ++ "\nAI Reasoning: " ++
                      (if r.reasoning = "" then "No reasoning provided" else r.reasoning))] } }

/-- A concrete revision 1 engine one failure short of the error budget,
used to exercise the tripping dispatch. -/
def nearBudgetEngine : Engine1 :=
  { executionState := { status := .running, currentStep := 4, totalSteps := 0, logs := [] },
    currentTask := some "task", errorCount := 4 }

/-! ## Theorems -/

/-- C8: within a task, `Store{text:x}` followed by `Store{text:y, append}`
accumulates `x\ny`, a further non-append `Store{text:z}` replaces the
buffer with `z`, and stored or printed text longer than the fixed maximum
is truncated to that maximum rather than rejected. -/
theorem c8_store_roundtrip (x y z t : String)
    (hx : x ≠ "") (hxl : x.length ≤ MAX_STORED_LENGTH)
    (hyl : y.length ≤ MAX_STORED_LENGTH) (hzl : z.length ≤ MAX_STORED_LENGTH) :
    aiStoreStep (aiStoreStep "" (storeAct x false)) (storeAct y true) = x ++ "\n" ++ y ∧
    aiStoreStep (x ++ "\n" ++ y) (storeAct z false) = z ∧
    (validateStoredData t).length ≤ MAX_STORED_LENGTH ∧
    (validatePrintData t).length ≤ MAX_PRINT_LENGTH := by
  have hvx : validateStoredData x = x := by
    simp only [validateStoredData]
    rw [if_neg]
    omega
  have hvy : validateStoredData y = y := by
    simp only [validateStoredData]
    rw [if_neg]
    omega
  have hvz : validateStoredData z = z := by
    simp only [validateStoredData]
    rw [if_neg]
    omega
  refine ⟨?_, ?_, ?_, ?_⟩
  · simp [aiStoreStep, storeAct, storeUpdate, hvx, hvy, hx]
  · simp [aiStoreStep, storeAct, storeUpdate, hvz]
  · simp only [validateStoredData]
    split
    · simp
    · omega
  · simp only [validatePrintData]
    split
    · simp
    · omega

/-- Witness for C8 at the literal inputs of the spec example. -/
theorem c8_store_roundtrip_witness :
    (("x" : String) ≠ "" ∧ ("x" : String).length ≤ MAX_STORED_LENGTH ∧
      ("y" : String).length ≤ MAX_STORED_LENGTH ∧ ("z" : String).length ≤ MAX_STORED_LENGTH) ∧
    (aiStoreStep (aiStoreStep "" (storeAct "x" false)) (storeAct "y" true) = "x" ++ "\n" ++ "y" ∧
      aiStoreStep ("x" ++ "\n" ++ "y") (storeAct "z" false) = "z" ∧
      (validateStoredData "w").length ≤ MAX_STORED_LENGTH ∧
      (validatePrintData "w").length ≤ MAX_PRINT_LENGTH) :=
  ⟨⟨by decide, by decide, by decide, by decide⟩,
    c8_store_roundtrip "x" "y" "z" "w" (by decide) (by decide) (by decide) (by decide)⟩

/-- C10: the oracle-prompt action history is bounded by the 10 most recent
entries: each new entry is appended last and, when the length would exceed
10, the oldest entry is evicted, so the kept history is always a suffix of
the appended one. -/
theorem c10_history_bounded (h : List HistEntry) (e : HistEntry)
    (hlen : h.length ≤ 10) :
    (addToHistory h e).length ≤ 10 ∧
    (addToHistory h e).getLast? = some e ∧
    (addToHistory h e) <:+ (h ++ [e]) ∧
    (h.length < 10 → addToHistory h e = h ++ [e]) ∧
    (h.length = 10 → addToHistory h e = h.tail ++ [e]) := by
  rcases Nat.lt_or_ge h.length 10 with hlt | hge
  · have hcond : ¬ ((h ++ [e]).length > 10) := by
      simp only [List.length_append, List.length_singleton]
      omega
    simp only [addToHistory, if_neg hcond]
    refine ⟨?_, List.getLast?_concat h, List.suffix_refl _, ?_, ?_⟩
    · simp only [List.length_append, List.length_singleton]
      omega
    · intro _
      trivial
    · intro heq
      omega
  · have heq : h.length = 10 := Nat.le_antisymm hlen hge
    have hcond : (h ++ [e]).length > 10 := by
      simp only [List.length_append, List.length_singleton]
      omega
    simp only [addToHistory, if_pos hcond]
    cases h with
    | nil => simp at heq
    | cons a h2 =>
      simp only [List.cons_append, List.tail_cons]
      have hlen2 : h2.length = 9 := by
        simp only [List.length_cons] at heq
        omega
      refine ⟨?_, List.getLast?_concat h2, List.suffix_cons a (h2 ++ [e]), ?_, ?_⟩
      · simp only [List.length_append, List.length_singleton]
        omega
      · intro hl
        simp only [List.length_cons] at hl
        omega
      · intro _
        trivial

/-- Witness for C10 at an empty history. -/
theorem c10_history_bounded_witness :
    (([] : List HistEntry).length ≤ 10) ∧
    ((addToHistory [] { action := none, reasoning := "", success := true }).length ≤ 10 ∧
      (addToHistory [] { action := none, reasoning := "", success := true }).getLast? =
        some { action := none, reasoning := "", success := true } ∧
      (addToHistory [] { action := none, reasoning := "", success := true }) <:+
        ([] ++ [{ action := none, reasoning := "", success := true }]) ∧
      (([] : List HistEntry).length < 10 →
        addToHistory [] { action := none, reasoning := "", success := true } =
          [] ++ [{ action := none, reasoning := "", success := true }]) ∧
      (([] : List HistEntry).length = 10 →
        addToHistory [] { action := none, reasoning := "", success := true } =
          ([] : List HistEntry).tail ++ [{ action := none, reasoning := "", success := true }])) :=
  ⟨by decide, c10_history_bounded [] { action := none, reasoning := "", success := true }
    (by decide)⟩

/-- C9 counterexample: a well-formed COMPLETE reply parses to a decision
whose `action` is present while `completed` is also set, so a present
action does not imply that both terminal flags are clear, and the three
outcomes are not mutually exclusive. -/
theorem c9_counterexample :
    AIResponseParser.parse { action := some { type := some "COMPLETE" }, reasoning := some "done" } =
      Except.ok { action := { type := some "COMPLETE" }, reasoning := "done",
                  completed := true, failed := false } := by
  rfl

/-- C9 amended: every successfully parsed decision carries a non-null
action with a non-empty type; `completed` holds exactly when that type is
COMPLETE and `failed` exactly when it is FAILED, so the two terminal flags
are never both set and a decision with an action and neither flag is
exactly a decision whose action is non-terminal. -/
theorem c9_amended (p : ParsedJson) (r : ParsedResponse)
    (hp : AIResponseParser.parse p = Except.ok r) :
    (∃ t, r.action.type = some t ∧ t ≠ "") ∧
    (r.completed = true ↔ r.action.type = some "COMPLETE") ∧
    (r.failed = true ↔ r.action.type = some "FAILED") ∧
    ¬ (r.completed = true ∧ r.failed = true) := by
  rcases p with ⟨pa, pr⟩
  cases pa with
  | none => simp [AIResponseParser.parse] at hp
  | some a =>
    cases ht : a.type with
    | none => simp [AIResponseParser.parse, ht] at hp
    | some t =>
      by_cases h0 : t = ""
      · simp [AIResponseParser.parse, ht, h0] at hp
      · simp only [AIResponseParser.parse, ht, if_neg h0, Except.ok.injEq] at hp
        subst hp
        refine ⟨⟨t, ht, h0⟩, ?_, ?_, ?_⟩
        · simp [ht]
        · simp [ht]
        · simp only [decide_eq_true_eq, not_and]
          intro hc hf
          subst hc
          exact absurd hf (by decide)

/-- Witness for C9 amended, at a CLICK reply. -/
theorem c9_amended_witness :
    (AIResponseParser.parse { action := some { type := some "CLICK" }, reasoning := none } =
      Except.ok { action := { type := some "CLICK" }, reasoning := "",
                  completed := false, failed := false }) ∧
    ((∃ t, ({ type := some "CLICK" } : RawAction).type = some t ∧ t ≠ "") ∧
      ((false = true) ↔ ({ type := some "CLICK" } : RawAction).type = some "COMPLETE") ∧
      ((false = true) ↔ ({ type := some "CLICK" } : RawAction).type = some "FAILED") ∧
      ¬ ((false = true) ∧ (false = true))) :=
  ⟨by rfl,
    c9_amended { action := some { type := some "CLICK" }, reasoning := none }
      { action := { type := some "CLICK" }, reasoning := "", completed := false, failed := false }
      (by rfl)⟩

/-- C5 counterexample: revision 2 `stopExecution` is not idempotent (a
second call appends a second stopped-by-user log entry) and it never
produces the `stopped` status — it resets the status to `idle`. -/
theorem c5_counterexample :
    stopExecution2 (stopExecution2
        { executionState := { status := .running, currentStep := 2, totalSteps := 0, logs := [] },
          currentTask := some "task" }) ≠
      stopExecution2
        { executionState := { status := .running, currentStep := 2, totalSteps := 0, logs := [] },
          currentTask := some "task" } ∧
    (stopExecution2
        { executionState := { status := .running, currentStep := 2, totalSteps := 0, logs := [] },
          currentTask := some "task" }).executionState.status ≠ Status.stopped := by
  decide

/-- C5 amended: `Stop` puts the status at `idle` (the `stopped` status is
never assigned).  Revision 1 `stopExecution` is idempotent, resets the
error budget and leaves the task and logs alone; revision 2 `stopExecution`
clears the active task and the pending observation and appends one
stopped-by-user log entry on every call, so a repeated call grows the log
instead of being a no-op. -/
theorem c5_amended (e : Engine1) (f : Engine2) :
    stopExecution1 (stopExecution1 e) = stopExecution1 e ∧
    (stopExecution1 e).executionState.status = Status.idle ∧
    (stopExecution1 e).currentTask = e.currentTask ∧
    (stopExecution1 e).errorCount = 0 ∧
    (stopExecution2 f).currentTask = none ∧
    (stopExecution2 f).lastPageState = none ∧
    (stopExecution2 f).executionState.status = Status.idle ∧
    (stopExecution2 f).executionState.logs =
      f.executionState.logs ++ [LogEntry.entry .info ("Task execution stopped by user")] :=
  ⟨rfl, rfl, rfl, rfl, rfl, rfl, rfl, rfl⟩

/-- Upper bound on the executor round trips of the revision 2 retry loop. -/
theorem execWithRetry_attempts_le (script : Nat → ExecOutcome) :
    ∀ r i, (execWithRetry script r i).2.tabAttempts ≤ r := by
  intro r
  induction r with
  | zero =>
    intro i
    simp [execWithRetry]
  | succ n ih =>
    intro i
    simp only [execWithRetry]
    cases script i with
    | ok => simp
    | err m =>
      by_cases h : n = 0
      · simp [h]
      · simp only [if_neg h]
        have := ih (i + 1)
        show (execWithRetry script n (i + 1)).2.tabAttempts + 1 ≤ n + 1
        omega

/-- C2 counterexample: a CLICK dispatch whose executor fails all 3 attempts
does not return failure to its caller — revision 2 `executeAction` rethrows
the last error past the dispatcher (and that revision has no error
budget). -/
theorem c2_counterexample :
    (executeAction2 { tabScript := fun _ => ExecOutcome.err "executor failure" }
        { type := .CLICK }
        { executionState := { status := .running, currentStep := 0, totalSteps := 0, logs := [] },
          currentTask := some "task" }).1 =
      Except.error ("executor failure") ∧
    (executeAction2 { tabScript := fun _ => ExecOutcome.err "executor failure" }
        { type := .CLICK }
        { executionState := { status := .running, currentStep := 0, totalSteps := 0, logs := [] },
          currentTask := some "task" }).2 =
      { tabAttempts := 3, reinjects := 2, backoffMs := 2 * RETRY_BACKOFF_MS } :=
  ⟨rfl, rfl⟩

/-- C2 amended: executor-bound dispatches make at most 3 attempts, with a
1 s backoff and a content script re-injection after each failed non-final
attempt; a script failing twice then succeeding yields success after 3
attempts, and in revision 1 a successful dispatch resets the error budget
to 0; but when all 3 attempts fail the retry loop rethrows the last error
to the caller instead of returning failure (the revision with the retry
loop has no error budget, and the revision with the error budget makes a
single attempt per dispatch). -/
theorem c2_amended (script : Nat → ExecOutcome) (m : String) (e : Engine1)
    (htab : e.hasTargetTab = true) :
    (execWithRetry script MAX_ATTEMPTS 0).2.tabAttempts ≤ MAX_ATTEMPTS ∧
    execWithRetry (fun i => if i < 2 then ExecOutcome.err m else ExecOutcome.ok) MAX_ATTEMPTS 0 =
      (Except.ok (), { tabAttempts := 3, reinjects := 2, backoffMs := 2 * RETRY_BACKOFF_MS }) ∧
    execWithRetry (fun _ => ExecOutcome.err m) MAX_ATTEMPTS 0 =
      (Except.error m, { tabAttempts := 3, reinjects := 2, backoffMs := 2 * RETRY_BACKOFF_MS }) ∧
    (executeAction1 {} { type := .CLICK } e).map (fun r => r.1.errorCount) = some 0 := by
  refine ⟨execWithRetry_attempts_le script MAX_ATTEMPTS 0, rfl, rfl, ?_⟩
  simp [executeAction1, performAction1, htab]

/-- Witness for C2 amended at a fresh revision 1 engine. -/
theorem c2_amended_witness :
    Engine1.init.hasTargetTab = true ∧
    ((execWithRetry (fun _ => ExecOutcome.ok) MAX_ATTEMPTS 0).2.tabAttempts ≤ MAX_ATTEMPTS ∧
      execWithRetry (fun i => if i < 2 then ExecOutcome.err "x" else ExecOutcome.ok)
          MAX_ATTEMPTS 0 =
        (Except.ok (), { tabAttempts := 3, reinjects := 2, backoffMs := 2 * RETRY_BACKOFF_MS }) ∧
      execWithRetry (fun _ => ExecOutcome.err "x") MAX_ATTEMPTS 0 =
        (Except.error ("x"),
          { tabAttempts := 3, reinjects := 2, backoffMs := 2 * RETRY_BACKOFF_MS }) ∧
      (executeAction1 {} { type := .CLICK } Engine1.init).map (fun r => r.1.errorCount) =
        some 0) :=
  ⟨rfl, c2_amended (fun _ => ExecOutcome.ok) "x" Engine1.init rfl⟩

/-- C6: a Navigate action whose load-complete signal never arrives fails
with the navigation-timeout error; in revision 1 it increments the error
budget by exactly 1 (below the tripping threshold), and in revision 2 it is
dispatched through a single `navigate` call that the generic retry loop
never touches (no executor attempts, no re-injections, no backoff). -/
theorem c6_navigation_timeout (e : Engine1) (f : Engine2) (u : String)
    (env : DispatchEnv) (env2 : DispatchEnv2)
    (htab : e.hasTargetTab = true) (hsig : env.navSignalAt = none)
    (hbudget : e.errorCount + 1 < MAX_ERRORS)
    (htab2 : f.hasTargetTab = true) (hsig2 : env2.navSignalAt = none) :
    (executeAction1 env { type := .NAVIGATE, payload := { url := u } } e).map
        (fun r => (r.1.errorCount, r.1.lastActionResult)) =
      some (e.errorCount + 1, { success := false, error := some ("Navigation timeout") }) ∧
    (executeAction2 env2 { type := .NAVIGATE, payload := { url := u } } f).1 =
      Except.error ("Navigation timeout") ∧
    (executeAction2 env2 { type := .NAVIGATE, payload := { url := u } } f).2 =
      { navCalls := 1 } := by
  have hnle : ¬ (MAX_ERRORS ≤ e.errorCount + 1) := by omega
  refine ⟨?_, ?_, ?_⟩
  · simp [executeAction1, performAction1, navigate1, htab, hsig, hnle]
  · simp [executeAction2, navigate2, htab2, hsig2]
  · simp [executeAction2, navigate2, htab2, hsig2]

/-- Witness for C6 at a fresh revision 1 engine and a running revision 2
engine with an unreachable navigation target. -/
theorem c6_navigation_timeout_witness :
    (Engine1.init.hasTargetTab = true ∧
      (({ navSignalAt := none } : DispatchEnv).navSignalAt = none) ∧
      Engine1.init.errorCount + 1 < MAX_ERRORS ∧
      (({ executionState := { status := .running, currentStep := 0, totalSteps := 0, logs := [] },
          currentTask := some "task" } : Engine2).hasTargetTab = true) ∧
      (({ navSignalAt := none } : DispatchEnv2).navSignalAt = none)) ∧
    ((executeAction1 { navSignalAt := none }
          { type := .NAVIGATE, payload := { url := "https://example.org" } } Engine1.init).map
        (fun r => (r.1.errorCount, r.1.lastActionResult)) =
      some (Engine1.init.errorCount + 1,
        { success := false, error := some ("Navigation timeout") }) ∧
      (executeAction2 { navSignalAt := none }
          { type := .NAVIGATE, payload := { url := "https://example.org" } }
          { executionState := { status := .running, currentStep := 0, totalSteps := 0, logs := [] },
            currentTask := some "task" }).1 =
        Except.error ("Navigation timeout") ∧
      (executeAction2 { navSignalAt := none }
          { type := .NAVIGATE, payload := { url := "https://example.org" } }
          { executionState := { status := .running, currentStep := 0, totalSteps := 0, logs := [] },
            currentTask := some "task" }).2 =
        { navCalls := 1 }) :=
  ⟨⟨rfl, rfl, by decide, rfl, rfl⟩,
    c6_navigation_timeout Engine1.init
      { executionState := { status := .running, currentStep := 0, totalSteps := 0, logs := [] },
        currentTask := some "task" }
      "https://example.org" { navSignalAt := none } { navSignalAt := none }
      rfl rfl (by decide) rfl rfl⟩

/-- C4: a burst of observation-changed events inside one quiescence window
produces exactly one delivery, carrying the last observation of the burst,
provided that observation is new under the structural fingerprint (first
state ever or differing hash); a burst whose final observation matches the
previously delivered fingerprint delivers nothing; the very first
observation ever seen is always delivered; and the background coalescer
forwards at most one decision-loop trigger per burst, with the last
observation, exactly when a task is active and running. -/
theorem c4_observation_debounce (cs : CSState) (burst : List PageState) (s : PageState)
    (e : Engine1)
    (hlast : burst.getLast? = some s)
    (hnew : cs.isInitialStateSet = false ∨ some (hashState s) ≠ cs.lastStateHash) :
    (debounceBurst cs burst).2 = [s] ∧
    (debounceBurst cs burst).1 =
      { lastStateHash := some (hashState s), isInitialStateSet := true } ∧
    (∀ cs2 b2 s2, b2.getLast? = some s2 → cs2.isInitialStateSet = true →
      cs2.lastStateHash = some (hashState s2) → (debounceBurst cs2 b2).2 = []) ∧
    (∀ s0, (sendPageState {} s0).2 = some s0) ∧
    (∀ b, (bgDebounceBurst e b).2 ≤ 1) ∧
    (e.currentTask ≠ none → e.executionState.status = .running →
      bgDebounceBurst e burst = ({ e with lastPageState := some s }, 1)) := by
  refine ⟨?_, ?_, ?_, ?_, ?_, ?_⟩
  · simp only [debounceBurst, hlast, sendPageState]
    rw [if_pos hnew]
    rfl
  · simp only [debounceBurst, hlast, sendPageState]
    rw [if_pos hnew]
  · intro cs2 b2 s2 h1 h2 h3
    have hcond : ¬ (cs2.isInitialStateSet = false ∨ some (hashState s2) ≠ cs2.lastStateHash) := by
      simp [h2, h3]
    simp only [debounceBurst, h1, sendPageState]
    rw [if_neg hcond]
    rfl
  · intro s0
    simp [sendPageState]
  · intro b
    cases hb : b.getLast? with
    | none => simp [bgDebounceBurst, hb]
    | some sb =>
      simp only [bgDebounceBurst, hb]
      split
      · exact Nat.le_refl 1
      · exact Nat.zero_le 1
  · intro ht hr
    simp [bgDebounceBurst, hlast, ht, hr]

/-- Witness for C4 at the spec's burst `A, A, B` with `A` and `B`
differing under the fingerprint, from a content script that has seen
nothing yet. -/
theorem c4_observation_debounce_witness :
    (([{ url := "a", title := "t", elements := [], timestamp := 0 },
        { url := "a", title := "t", elements := [], timestamp := 0 },
        { url := "b", title := "t", elements := [], timestamp := 0 }] :
          List PageState).getLast? =
        some { url := "b", title := "t", elements := [], timestamp := 0 } ∧
      (({} : CSState).isInitialStateSet = false ∨
        some (hashState { url := "b", title := "t", elements := [], timestamp := 0 }) ≠
          ({} : CSState).lastStateHash)) ∧
    ((debounceBurst {}
        [{ url := "a", title := "t", elements := [], timestamp := 0 },
          { url := "a", title := "t", elements := [], timestamp := 0 },
          { url := "b", title := "t", elements := [], timestamp := 0 }]).2 =
      [{ url := "b", title := "t", elements := [], timestamp := 0 }] ∧
      (debounceBurst {}
        [{ url := "a", title := "t", elements := [], timestamp := 0 },
          { url := "a", title := "t", elements := [], timestamp := 0 },
          { url := "b", title := "t", elements := [], timestamp := 0 }]).1 =
        { lastStateHash :=
            some (hashState { url := "b", title := "t", elements := [], timestamp := 0 }),
          isInitialStateSet := true } ∧
      (∀ cs2 b2 s2, b2.getLast? = some s2 → cs2.isInitialStateSet = true →
        cs2.lastStateHash = some (hashState s2) → (debounceBurst cs2 b2).2 = []) ∧
      (∀ s0, (sendPageState {} s0).2 = some s0) ∧
      (∀ b, (bgDebounceBurst Engine1.init b).2 ≤ 1) ∧
      (Engine1.init.currentTask ≠ none → Engine1.init.executionState.status = .running →
        bgDebounceBurst Engine1.init
          [{ url := "a", title := "t", elements := [], timestamp := 0 },
            { url := "a", title := "t", elements := [], timestamp := 0 },
            { url := "b", title := "t", elements := [], timestamp := 0 }] =
          ({ Engine1.init with
              lastPageState := some { url := "b", title := "t", elements := [], timestamp := 0 } },
            1))) :=
  ⟨⟨rfl, Or.inl rfl⟩,
    c4_observation_debounce {}
      [{ url := "a", title := "t", elements := [], timestamp := 0 },
        { url := "a", title := "t", elements := [], timestamp := 0 },
        { url := "b", title := "t", elements := [], timestamp := 0 }]
      { url := "b", title := "t", elements := [], timestamp := 0 }
      Engine1.init rfl (Or.inl rfl)⟩

/-- C3 counterexample: revision 1 `handleNewTask` called while the status
is running does not fail — it replaces the active task and resets the
execution state, so the existing task's state is not left unchanged. -/
theorem c3_counterexample :
    (handleNewTask1 "new"
        { executionState :=
            { status := .running, currentStep := 3, totalSteps := 0,
              logs := [LogEntry.raw ("old log")] },
          currentTask := some "old" }).currentTask = some "new" ∧
    (handleNewTask1 "new"
        { executionState :=
            { status := .running, currentStep := 3, totalSteps := 0,
              logs := [LogEntry.raw ("old log")] },
          currentTask := some "old" }).executionState.logs = [] :=
  ⟨rfl, rfl⟩

/-- C3 amended: revision 2 `handleNewTask` fails while a task is running,
throwing before any state mutation; revision 1 `handleNewTask` never fails
— it unconditionally terminates the prior task, resets the step counter
and the error budget, installs the new task with status running and empty
logs, and invokes the decision loop once (a completing oracle is consulted
exactly once). -/
theorem c3_amended (prompt : String) (f : Engine2) (resp : Except String AIResponseM)
    (e : Engine1)
    (hrun : f.executionState.status = .running) :
    handleNewTask2 resp prompt f = Except.error ("A task is already running.") ∧
    (handleNewTask1 prompt e).currentTask = some prompt ∧
    (handleNewTask1 prompt e).executionState.status = Status.running ∧
    (handleNewTask1 prompt e).executionState.currentStep = 0 ∧
    (handleNewTask1 prompt e).errorCount = 0 ∧
    (handleNewTask1 prompt e).executionState.logs = [] ∧
    (startTask1 (fun _ => Except.ok { action := none, completed := true })
        (fun _ => {}) 100 prompt e).2.oracleCalls = 1 := by
  refine ⟨?_, rfl, rfl, rfl, rfl, rfl, rfl⟩
  simp [handleNewTask2, hrun]

/-- Witness for C3 amended at a running revision 2 engine. -/
theorem c3_amended_witness :
    (({ executionState := { status := .running, currentStep := 1, totalSteps := 0, logs := [] },
        currentTask := some "old" } : Engine2).executionState.status = .running) ∧
    (handleNewTask2 (Except.ok { action := some { type := .CLICK } }) "new"
        { executionState := { status := .running, currentStep := 1, totalSteps := 0, logs := [] },
          currentTask := some "old" } =
      Except.error ("A task is already running.") ∧
      (handleNewTask1 "new" Engine1.init).currentTask = some "new" ∧
      (handleNewTask1 "new" Engine1.init).executionState.status = Status.running ∧
      (handleNewTask1 "new" Engine1.init).executionState.currentStep = 0 ∧
      (handleNewTask1 "new" Engine1.init).errorCount = 0 ∧
      (handleNewTask1 "new" Engine1.init).executionState.logs = [] ∧
      (startTask1 (fun _ => Except.ok { action := none, completed := true })
          (fun _ => {}) 100 "new" Engine1.init).2.oracleCalls = 1) :=
  ⟨rfl,
    c3_amended "new"
      { executionState := { status := .running, currentStep := 1, totalSteps := 0, logs := [] },
        currentTask := some "old" }
      (Except.ok { action := some { type := .CLICK } }) Engine1.init rfl⟩

/-- A dispatch with a target tab always produces a state whose step counter
is exactly one higher, and keeps the target tab. -/
theorem executeAction1_step (env : DispatchEnv) (a : AIAction) (e : Engine1)
    (htab : e.hasTargetTab = true) :
    (stepEv e (Ev.act env a)).executionState.currentStep =
      e.executionState.currentStep + 1 ∧
    (stepEv e (Ev.act env a)).hasTargetTab = true := by
  have hcond : ¬ (e.hasTargetTab = false) := by simp [htab]
  cases h : a.type <;>
    cases htr : env.tabResult <;>
    cases hnav : navigate1 env.navSignalAt env.navReinject <;>
    by_cases hbud : MAX_ERRORS ≤ e.errorCount + 1 <;>
    simp [stepEv, executeAction1, if_neg hcond, performAction1, h, htr, hnav, hbud,
      stopExecution1, htab]

/-- Any non-start event keeps the step counter non-decreasing and the
target tab present. -/
theorem stepEv_mono (f : Engine1) (htab : f.hasTargetTab = true) (ev : Ev)
    (hns : ev.isStart = false) :
    f.executionState.currentStep ≤ (stepEv f ev).executionState.currentStep ∧
    (stepEv f ev).hasTargetTab = true := by
  cases ev with
  | start p => simp [Ev.isStart] at hns
  | act env a =>
    obtain ⟨h1, h2⟩ := executeAction1_step env a f htab
    refine ⟨?_, h2⟩
    omega
  | stop => exact ⟨Nat.le_refl _, htab⟩

/-- Running a start-free trace adds exactly the number of dispatched
actions to the step counter. -/
theorem runEvs_noStart (evs : List Ev) :
    ∀ f : Engine1, f.hasTargetTab = true → (∀ ev ∈ evs, ev.isStart = false) →
      (runEvs f evs).executionState.currentStep =
        f.executionState.currentStep + countActs evs ∧
      (runEvs f evs).hasTargetTab = true := by
  induction evs with
  | nil =>
    intro f htab _
    exact ⟨rfl, htab⟩
  | cons ev evs ih =>
    intro f htab hall
    have hev : ev.isStart = false := hall ev (List.mem_cons_self ev evs)
    have hrest : ∀ x ∈ evs, x.isStart = false := fun x hx => hall x (List.mem_cons_of_mem ev hx)
    cases ev with
    | start p => simp [Ev.isStart] at hev
    | act env a =>
      obtain ⟨h1, h2⟩ := executeAction1_step env a f htab
      obtain ⟨h3, h4⟩ := ih (stepEv f (Ev.act env a)) h2 hrest
      refine ⟨?_, h4⟩
      show (runEvs (stepEv f (Ev.act env a)) evs).executionState.currentStep =
        f.executionState.currentStep + countActs (Ev.act env a :: evs)
      rw [h3, h1]
      simp only [countActs]
      omega
    | stop =>
      obtain ⟨h3, h4⟩ := ih (stepEv f Ev.stop) htab hrest
      refine ⟨?_, h4⟩
      show (runEvs (stepEv f Ev.stop) evs).executionState.currentStep =
        f.executionState.currentStep + countActs (Ev.stop :: evs)
      rw [h3]
      rfl

/-- C7: within one task, the step counter equals the number of actions
dispatched since the last start (for every start-free continuation trace),
is monotonically non-decreasing under every non-start event, and an event
that resets a non-zero step counter to 0 can only be a start (the creation
of a new task). -/
theorem c7_step_counter (e : Engine1) (prompt : String) (post : List Ev)
    (htab : e.hasTargetTab = true)
    (hpost : ∀ ev ∈ post, ev.isStart = false) :
    (runEvs (handleNewTask1 prompt e) post).executionState.currentStep = countActs post ∧
    (∀ f : Engine1, f.hasTargetTab = true → ∀ ev : Ev, ev.isStart = false →
      f.executionState.currentStep ≤ (stepEv f ev).executionState.currentStep) ∧
    (∀ f : Engine1, f.hasTargetTab = true → ∀ ev : Ev,
      (stepEv f ev).executionState.currentStep = 0 →
      f.executionState.currentStep ≠ 0 → ev.isStart = true) := by
  refine ⟨?_, ?_, ?_⟩
  · have htab2 : (handleNewTask1 prompt e).hasTargetTab = true := htab
    obtain ⟨h1, _⟩ := runEvs_noStart post (handleNewTask1 prompt e) htab2 hpost
    rw [h1]
    show 0 + countActs post = countActs post
    omega
  · intro f hf ev hev
    exact (stepEv_mono f hf ev hev).1
  · intro f hf ev h0 hne
    cases hbe : ev.isStart with
    | true => rfl
    | false =>
      have hmono := (stepEv_mono f hf ev hbe).1
      have hcs : f.executionState.currentStep = 0 := by omega
      exact absurd hcs hne

/-- Witness for C7 on a two-event trace holding one dispatch and a stop. -/
theorem c7_step_counter_witness :
    (Engine1.init.hasTargetTab = true ∧
      (∀ ev ∈ [Ev.act {} { type := .CLICK }, Ev.stop], ev.isStart = false)) ∧
    ((runEvs (handleNewTask1 "task" Engine1.init)
        [Ev.act {} { type := .CLICK }, Ev.stop]).executionState.currentStep =
      countActs [Ev.act {} { type := .CLICK }, Ev.stop] ∧
      (∀ f : Engine1, f.hasTargetTab = true → ∀ ev : Ev, ev.isStart = false →
        f.executionState.currentStep ≤ (stepEv f ev).executionState.currentStep) ∧
      (∀ f : Engine1, f.hasTargetTab = true → ∀ ev : Ev,
        (stepEv f ev).executionState.currentStep = 0 →
        f.executionState.currentStep ≠ 0 → ev.isStart = true)) :=
  ⟨⟨rfl, by decide⟩,
    c7_step_counter Engine1.init "task" [Ev.act {} { type := .CLICK }, Ev.stop]
      rfl (by decide)⟩

/-- C1 counterexample: driving a fresh revision 1 engine with an oracle
that always proposes an action and an executor that always fails, the run
after the error budget trips ends with the active task still installed and
the status at `idle` (not `failed`) — `stopExecution` resets the status it
had just set and clears neither the task nor leaves the `failed` state
observable. -/
theorem c1_counterexample :
    (startTask1 (fun _ => Except.ok { action := some { type := .CLICK }, reasoning := "r" })
        (fun _ => { tabResult := ExecOutcome.err "boom" }) 100 "t" Engine1.init).1.currentTask =
      some "t" ∧
    (startTask1 (fun _ => Except.ok { action := some { type := .CLICK }, reasoning := "r" })
        (fun _ => { tabResult := ExecOutcome.err "boom" }) 100 "t"
        Engine1.init).1.executionState.status = Status.idle :=
  ⟨rfl, rfl⟩

/-- C1 amended: when the error budget reaches 5 the tripping dispatch sets
the status to `failed`, logs the standard message and immediately runs
`stopExecution`, which resets the status to `idle` and the counter to 0
while leaving the active task in place; the dispatcher reports
do-not-continue, and a full run against an always-failing executor makes
exactly 5 dispatches and 5 decision calls out of ample fuel — a 6th is
never attempted — after which observation bursts trigger no further
decision call because the status is no longer `running`. -/
theorem c1_amended (prompt msg reas : String) (e : Engine1)
    (htab : e.hasTargetTab = true) (hec : e.errorCount = MAX_ERRORS - 1) :
    (executeAction1 { tabResult := ExecOutcome.err msg } { type := .CLICK } e).map
        (fun r => (r.1.executionState.status, r.1.currentTask, r.1.errorCount, r.2)) =
      some (Status.idle, e.currentTask, 0, false) ∧
    (∃ r, executeAction1 { tabResult := ExecOutcome.err msg } { type := .CLICK } e = some r ∧
      LogEntry.raw ("Task failed due to too many errors.") ∈ r.1.executionState.logs) ∧
    (startTask1 (fun _ => Except.ok { action := some { type := .CLICK }, reasoning := reas })
        (fun _ => { tabResult := ExecOutcome.err msg }) 100 prompt Engine1.init).2 =
      { dispatches := 5, oracleCalls := 5 } ∧
    (startTask1 (fun _ => Except.ok { action := some { type := .CLICK }, reasoning := reas })
        (fun _ => { tabResult := ExecOutcome.err msg }) 100 prompt
        Engine1.init).1.executionState.status = Status.idle ∧
    (startTask1 (fun _ => Except.ok { action := some { type := .CLICK }, reasoning := reas })
        (fun _ => { tabResult := ExecOutcome.err msg }) 100 prompt
        Engine1.init).1.currentTask = some prompt ∧
    (∀ b, (bgDebounceBurst
        (startTask1 (fun _ => Except.ok { action := some { type := .CLICK }, reasoning := reas })
          (fun _ => { tabResult := ExecOutcome.err msg }) 100 prompt Engine1.init).1 b).2 = 0) := by
  have hcond : ¬ (e.hasTargetTab = false) := by simp [htab]
  have hbud : MAX_ERRORS ≤ e.errorCount + 1 := by
    rw [hec]
    decide
  refine ⟨?_, ?_, rfl, rfl, rfl, ?_⟩
  · simp [executeAction1, if_neg hcond, performAction1, hbud, stopExecution1]
  · simp only [executeAction1, if_neg hcond, performAction1, if_pos hbud]
    refine ⟨_, rfl, ?_⟩
    simp [stopExecution1]
  · intro b
    have hst : (startTask1
        (fun _ => Except.ok { action := some { type := .CLICK }, reasoning := reas })
        (fun _ => { tabResult := ExecOutcome.err msg }) 100 prompt
        Engine1.init).1.executionState.status = Status.idle := rfl
    cases hb : b.getLast? with
    | none => simp [bgDebounceBurst, hb]
    | some sb =>
      simp only [bgDebounceBurst, hb]
      rw [if_neg]
      intro hand
      have := hand.2
      rw [hst] at this
      cases this

/-- Witness for C1 amended, at an engine one failure short of the budget. -/
theorem c1_amended_witness :
    (nearBudgetEngine.hasTargetTab = true ∧
      nearBudgetEngine.errorCount = MAX_ERRORS - 1) ∧
    ((executeAction1 { tabResult := ExecOutcome.err "boom" } { type := .CLICK }
        nearBudgetEngine).map
        (fun r => (r.1.executionState.status, r.1.currentTask, r.1.errorCount, r.2)) =
      some (Status.idle, nearBudgetEngine.currentTask, 0, false) ∧
      (∃ r, executeAction1 { tabResult := ExecOutcome.err "boom" } { type := .CLICK }
          nearBudgetEngine = some r ∧
        LogEntry.raw ("Task failed due to too many errors.") ∈ r.1.executionState.logs) ∧
      (startTask1 (fun _ => Except.ok { action := some { type := .CLICK }, reasoning := "r" })
          (fun _ => { tabResult := ExecOutcome.err "boom" }) 100 "t" Engine1.init).2 =
        { dispatches := 5, oracleCalls := 5 } ∧
      (startTask1 (fun _ => Except.ok { action := some { type := .CLICK }, reasoning := "r" })
          (fun _ => { tabResult := ExecOutcome.err "boom" }) 100 "t"
          Engine1.init).1.executionState.status = Status.idle ∧
      (startTask1 (fun _ => Except.ok { action := some { type := .CLICK }, reasoning := "r" })
          (fun _ => { tabResult := ExecOutcome.err "boom" }) 100 "t"
          Engine1.init).1.currentTask = some "t" ∧
      (∀ b, (bgDebounceBurst
          (startTask1 (fun _ => Except.ok { action := some { type := .CLICK }, reasoning := "r" })
            (fun _ => { tabResult := ExecOutcome.err "boom" }) 100 "t" Engine1.init).1 b).2 = 0)) :=
  ⟨⟨rfl, rfl⟩, c1_amended "t" "boom" "r" nearBudgetEngine rfl rfl⟩

end Braiser
